import Mathlib

set_option autoImplicit false
set_option maxRecDepth 100000

/-!
Shallow embedding of the scan orchestration pipeline of the `use-k8s-mcp`
repository: `src/scanner/resource_parser.py`, `src/scanner/cluster_scanner.py`
and `src/scanner/scan_coordinator.py`.

Raw MCP tool replies are Python/JSON-like values, embedded as `PyVal`.
Python dictionaries are association lists with unique keys in practice;
`d.get(k, default)` is first-match lookup.  Fallible Python code is embedded
as `Except PyExc`-valued functions; the Python exception that propagates is
recorded by the `PyExc` constructor.

Wall-clock time (timestamps, durations, actual sleeping) is not represented;
the coordinator model records the *argument* of each backoff sleep in a log.
The `src/cache` package (CacheManager, CacheMetadata, the record dataclasses)
is not part of the provided sources; it is modelled from the spec where the
coordinator constructs or stores such records, as noted on each definition.
-/

namespace K8sScan

/-- A Python/JSON-like value as found in raw MCP tool replies. -/
inductive PyVal where
  | none
  | bool (b : Bool)
  | int (n : Int)
  | str (s : String)
  | list (xs : List PyVal)
  | dict (kvs : List (String × PyVal))

/-- Python truthiness (`if x:`) for the embedded values. -/
def PyVal.truthy : PyVal → Bool
  | .none => false
  | .bool b => b
  | .int n => decide (n ≠ 0)
  | .str s => decide (s ≠ "")
  | .list xs => !xs.isEmpty
  | .dict kvs => !kvs.isEmpty

/-- First-match association-list lookup, the model of a Python dict probe
(Python dict keys are unique, so first match is the dict entry). -/
def pyLookup : List (String × PyVal) → String → Option PyVal
  | [], _ => Option.none
  | (k, v) :: rest, key => if k = key then some v else pyLookup rest key

/-- `d.get(k, default)` on a value already known to be a dict. -/
def lookupD (kvs : List (String × PyVal)) (k : String) (d : PyVal) : PyVal :=
  match pyLookup kvs k with
  | some v => v
  | Option.none => d

/-- `k in d` on a dict: key containment. -/
def containsKey (kvs : List (String × PyVal)) (k : String) : Bool :=
  match pyLookup kvs k with
  | some _ => true
  | Option.none => false

/-- Python `x == "lit"` for an embedded value against a string literal:
true exactly when `x` is that string. -/
def pyEqStr : PyVal → String → Bool
  | .str s, t => s = t
  | _, _ => false

/-- Python `x is None`. -/
def isPyNone : PyVal → Bool
  | .none => true
  | _ => false

/-- Python `==` between hashable scalars, as used for dict-key lookup
(`True == 1` in Python, so bools compare equal to the matching ints). -/
def pyKeyEq : PyVal → PyVal → Bool
  | .none, .none => true
  | .bool a, .bool b => a = b
  | .int n, .int m => n = m
  | .str a, .str b => a = b
  | .bool a, .int m => (if a then (1 : Int) else 0) = m
  | .int n, .bool b => n = (if b then (1 : Int) else 0)
  | _, _ => false

/-- Whether a value may be a Python dict key (lists and dicts are
unhashable). -/
def hashableKey : PyVal → Bool
  | .list _ => false
  | .dict _ => false
  | _ => true

/-- The Python exceptions the embedded code can raise.  `msg` below is
`str(e)`: the message the coordinator records for a tier failure. -/
inductive PyExc where
  | nameError (msg : String)
  | typeError (msg : String)
  | attributeError (msg : String)
  | valueError (msg : String)
  | scanError (msg : String)
  | scanTimeoutError (msg : String)
  | clusterConnectionError (msg : String)
deriving DecidableEq

/-- `str(e)` of an embedded Python exception. -/
def PyExc.msg : PyExc → String
  | .nameError m => m
  | .typeError m => m
  | .attributeError m => m
  | .valueError m => m
  | .scanError m => m
  | .scanTimeoutError m => m
  | .clusterConnectionError m => m

/-- The `NameError` that `resource_parser.py` actually raises in its `except`
blocks: the module never imports `create_exception_context`, so evaluating it
raises `NameError` while the original exception is being handled. -/
def nameErrorMsg : String := "name create_exception_context is not defined"

/-- `v.get(k, d)`: raises `AttributeError` unless `v` is a dict. -/
def pyGetD (v : PyVal) (k : String) (d : PyVal) : Except PyExc PyVal :=
  match v with
  | .dict kvs => .ok (lookupD kvs k d)
  | _ => .error (.attributeError ("object has no attribute get: " ++ k))

/-- Python `s.split(sep)` for a one-character separator, on the character
list: always returns at least one (possibly empty) piece. -/
def pySplitAux (sep : Char) : List Char → List (List Char)
  | [] => [[]]
  | c :: rest =>
    let r := pySplitAux sep rest
    if c = sep then [] :: r
    else
      match r with
      | h :: t => (c :: h) :: t
      | [] => [[c]]

/-- Python `s.split(sep)` for a one-character separator. -/
def pySplit (sep : Char) (s : String) : List String :=
  (pySplitAux sep s.data).map fun cs => String.mk cs

/-- `label.split('/')[-1]`: the text after the final slash (`split` always
returns a nonempty list, so the `[-1]` index cannot fail). -/
def lastComponent (label : String) : String :=
  ((pySplit '/' label).getLast?).getD label

/-- `ResourceParser._extract_node_roles` (resource_parser.py:352-369): probes
the three hard-coded role labels in `metadata.labels` and collects the text
after the final slash of each label found; defaults to `["worker"]`. -/
def extract_node_roles (node_data : PyVal) : Except PyExc (List String) := do
  let meta ← pyGetD node_data "metadata" (.dict [])
  let labels ← pyGetD meta "labels" (.dict [])
  -- `label in labels` needs the labels value to be a container; the pipeline
  -- always passes a dict (the `.get` default above), which is the case
  -- embedded here.
  let lkvs ← match labels with
    | .dict kvs => pure kvs
    | _ => Except.error (.typeError "argument is not a container")
  let role_labels := ["node-role.kubernetes.io/master",
                      "node-role.kubernetes.io/control-plane",
                      "node-role.kubernetes.io/worker"]
  let roles := role_labels.filterMap fun label =>
    if containsKey lkvs label then
      some (lastComponent label)
    else
      Option.none
  return if roles.isEmpty then ["worker"] else roles

/-- The node-role extraction rule as the spec words it: the roles are the
suffixes of *all* label keys matching `node-role.kubernetes.io/*`, defaulting
to `["worker"]` when none match.  Stated only to be compared with
`extract_node_roles`; translated from the spec, not from the source. -/
def spec_node_roles (node_data : PyVal) : List String :=
  let meta := match node_data with
    | .dict kvs => lookupD kvs "metadata" (.dict [])
    | _ => .dict []
  let labels := match meta with
    | .dict kvs => lookupD kvs "labels" (.dict [])
    | _ => .dict []
  let lkvs := match labels with
    | .dict kvs => kvs
    | _ => []
  let roles := lkvs.filterMap fun kv =>
    if ("node-role.kubernetes.io/").data.isPrefixOf kv.1.data then
      some (lastComponent kv.1)
    else
      Option.none
  if roles.isEmpty then ["worker"] else roles

/-- `all(cs.get('ready', False) for cs in container_statuses)`: short-circuit
conjunction of the truthiness of each `ready` field. -/
def allReadyM : List PyVal → Except PyExc Bool
  | [] => .ok true
  | c :: rest => do
    let r ← pyGetD c "ready" (.bool false)
    if r.truthy then allReadyM rest else pure false

/-- `ResourceParser._extract_pod_status` (resource_parser.py:371-385). -/
def extract_pod_status (pod_data : PyVal) : Except PyExc PyVal := do
  let status_info ← pyGetD pod_data "status" (.dict [])
  let phase ← pyGetD status_info "phase" (.str "Unknown")
  let container_statuses ← pyGetD status_info "containerStatuses" (.list [])
  if container_statuses.truthy then
    -- iteration: only lists are iterated in this model; the pipeline default
    -- above makes the value a list whenever the reply is well-formed
    let css ← match container_statuses with
      | .list xs => pure xs
      | _ => Except.error (.typeError "object is not iterable")
    let all_ready ← allReadyM css
    if pyEqStr phase "Running" && all_ready then
      return .str "Running"
    else if pyEqStr phase "Running" && !all_ready then
      return .str "NotReady"
    else
      return phase
  else
    return phase

/-- The `{cs.get('name'): cs for cs in status_containers}` comprehension of
`_extract_container_info`, as the list of `(name, entry)` pairs in iteration
order; a later duplicate name overwrites an earlier one, so lookups search
the reversed list. -/
def buildStatusMap : List PyVal → Except PyExc (List (PyVal × PyVal))
  | [] => .ok []
  | c :: rest => do
    let n ← pyGetD c "name" .none
    if !hashableKey n then
      throw (.typeError "unhashable type used as dict key")
    let tail ← buildStatusMap rest
    return (n, c) :: tail

/-- The search part of `status_map.get(name, {})`, with last-wins
dict-comprehension semantics; the hashability of `name` is checked by the
caller before this search runs, as Python hashes the key first. -/
def statusMapGet (m : List (PyVal × PyVal)) (name : PyVal) : PyVal :=
  match m.reverse.find? (fun p => pyKeyEq p.1 name) with
  | some p => p.2
  | Option.none => .dict []

/-- The `for container in spec_containers` loop of
`_extract_container_info`, left to right, appending one entry dict per spec
container.  `status_map.get(name, {})` hashes its key before the lookup,
so an unhashable spec-container name raises `TypeError` even against an
empty map; the pure `statusMapGet` search runs only after that check. -/
def extractContainers (status_map : List (PyVal × PyVal)) :
    List PyVal → Except PyExc (List PyVal)
  | [] => .ok []
  | container :: rest => do
    let name ← pyGetD container "name" .none
    let image ← pyGetD container "image" .none
    if !hashableKey name then
      throw (.typeError "unhashable type used as dict key")
    let container_status := statusMapGet status_map name
    let ready ← pyGetD container_status "ready" (.bool false)
    let restart_count ← pyGetD container_status "restartCount" (.int 0)
    let tail ← extractContainers status_map rest
    return (.dict [("name", name), ("image", image),
                   ("ready", ready), ("restartCount", restart_count)]) :: tail

/-- `ResourceParser._extract_container_info` (resource_parser.py:387-414). -/
def extract_container_info (pod_data : PyVal) : Except PyExc (List PyVal) := do
  let spec ← pyGetD pod_data "spec" (.dict [])
  let spec_containers ← pyGetD spec "containers" (.list [])
  let status ← pyGetD pod_data "status" (.dict [])
  let status_containers ← pyGetD status "containerStatuses" (.list [])
  let scs ← match spec_containers with
    | .list xs => pure xs
    | _ => Except.error (.typeError "object is not iterable")
  let stcs ← match status_containers with
    | .list xs => pure xs
    | _ => Except.error (.typeError "object is not iterable")
  let status_map ← buildStatusMap stcs
  extractContainers status_map scs

/-- Python `isinstance(x, int)`: embedded ints, and embedded bools since
Python `bool` is a subtype of `int`. -/
def isPyInt : PyVal → Bool
  | .int _ => true
  | .bool _ => true
  | _ => false

/-- The numeric value of an int-like `PyVal` (Python `True == 1`). -/
def pyIntVal : PyVal → Int
  | .int n => n
  | .bool b => if b then 1 else 0
  | _ => 0

/-- The `try` body of `ResourceParser.validate_parsed_data`
(resource_parser.py:567-596): the raises inside the body are `ValueError`s
(or an `AttributeError` when a kind-specific probe hits a non-dict); its
only normal exit is the final `return True`. -/
def tryValidate (data : PyVal) (resource_type : String)
    (required_fields : List String) : Except PyExc Unit := do
  if !data.truthy then
    throw (.valueError "数据不能为空")
  match data with
  | .dict kvs =>
    let missing := required_fields.filter fun f =>
      match pyLookup kvs f with
      | Option.none => true
      | some v => isPyNone v
    if !missing.isEmpty then
      throw (.valueError "缺少必需字段")
  | _ => pure ()
  if resource_type = "cluster" then
    let nc ← pyGetD data "node_count" .none
    if !isPyInt nc then
      throw (.valueError "节点数量必须是非负整数")
    else if pyIntVal nc < 0 then
      throw (.valueError "节点数量必须是非负整数")
  else if resource_type = "pod" then
    let ph ← pyGetD data "phase" .none
    if !(["Pending", "Running", "Succeeded", "Failed", "Unknown"].any
          fun s => pyEqStr ph s) then
      throw (.valueError "无效的Pod阶段")
  else if resource_type = "service" then
    let ty ← pyGetD data "type" .none
    if !(["ClusterIP", "NodePort", "LoadBalancer", "ExternalName"].any
          fun s => pyEqStr ty s) then
      throw (.valueError "无效的服务类型")
  return ()

/-- `ResourceParser.validate_parsed_data` (resource_parser.py:548-605).
Its `except` block evaluates `create_exception_context`, a name the module
never imports, so every failure of the `try` body escapes as `NameError`;
the `ScanValidationError` promised by the docstring is never constructed. -/
def validate_parsed_data (data : PyVal) (resource_type : String)
    (required_fields : List String) : Except PyExc Bool :=
  match tryValidate data resource_type required_fields with
  | .ok _ => .ok true
  | .error _ => .error (.nameError nameErrorMsg)

/-- Modelled from the spec: the `ClusterInfo` dataclass lives in the missing
`src/cache/models.py`; its fields are fixed by the parser's constructor call
(name, version, api_server, node_count). -/
structure ClusterInfo where
  name : PyVal
  version : PyVal
  api_server : PyVal
  node_count : PyVal

/-- Modelled from the spec: the `NamespaceInfo` dataclass of the missing
`src/cache/models.py`, fields as constructed by `parse_namespaces`. -/
structure NamespaceInfo where
  cluster_name : String
  name : PyVal
  status : PyVal
  labels : PyVal
  annotations : PyVal

/-- Modelled from the spec: the `NodeInfo` dataclass of the missing
`src/cache/models.py`, fields as constructed by `parse_nodes`. -/
structure NodeInfo where
  cluster_name : String
  name : PyVal
  status : String
  roles : List String
  capacity : PyVal
  allocatable : PyVal
  labels : PyVal
  taints : PyVal

/-- Modelled from the spec: the `PodInfo` dataclass of the missing
`src/cache/models.py`, fields as constructed by `parse_pods`
(`nspace` stands for the `namespace` field, a reserved word here). -/
structure PodInfo where
  cluster_name : String
  nspace : PyVal
  name : PyVal
  status : PyVal
  phase : PyVal
  node_name : PyVal
  labels : PyVal
  containers : List PyVal

/-- Modelled from the spec: the `ServiceInfo` dataclass of the missing
`src/cache/models.py`, fields as constructed by `parse_services`. -/
structure ServiceInfo where
  cluster_name : String
  nspace : PyVal
  name : PyVal
  type : PyVal
  cluster_ip : PyVal
  external_ip : PyVal
  ports : PyVal
  selector : PyVal

/-- Python `len(x)` for sized values. -/
def pyLen : PyVal → Except PyExc Nat
  | .list xs => .ok xs.length
  | .dict kvs => .ok kvs.length
  | .str s => .ok s.length
  | _ => .error (.typeError "object has no len")

/-- The `try` body of `ResourceParser.parse_cluster_info`
(resource_parser.py:44-66). -/
def tryParseClusterInfo (raw_data : PyVal) (cluster_name : Option String) :
    Except PyExc ClusterInfo := do
  -- `cluster_name or raw_data.get('name', 'unknown')` short-circuits
  let name ← match cluster_name with
    | some s =>
        if s ≠ "" then pure (PyVal.str s)
        else pyGetD raw_data "name" (.str "unknown")
    | Option.none => pyGetD raw_data "name" (.str "unknown")
  let svDefault ← pyGetD raw_data "serverVersion" (.str "unknown")
  let version ← pyGetD raw_data "version" svDefault
  let apiDefault ← pyGetD raw_data "apiServer" (.str "unknown")
  let api_server ← pyGetD raw_data "server" apiDefault
  let kvs ← match raw_data with
    | .dict kvs => pure kvs
    | _ => Except.error (.typeError "argument is not a container")
  let node_count ←
    if containsKey kvs "nodes" then do
      let n ← pyLen (lookupD kvs "nodes" .none)
      pure (PyVal.int (n : Int))
    else if containsKey kvs "nodeCount" then
      pure (lookupD kvs "nodeCount" .none)
    else
      pure (PyVal.int 0)
  return ⟨name, version, api_server, node_count⟩

/-- The `ResourceParserInitMsg`: `parse_cluster_info`'s `except` block calls
`ResourceParseError(msg)` with a single argument, but `K8sAgentException`
requires a `context` argument, so the construction itself raises
`TypeError`. -/
def resourceParseErrorInitMsg : String :=
  "ResourceParseError init missing required positional argument context"

/-- `ResourceParser.parse_cluster_info` (resource_parser.py:25-70). -/
def parse_cluster_info (raw_data : PyVal) (cluster_name : Option String) :
    Except PyExc ClusterInfo :=
  match tryParseClusterInfo raw_data cluster_name with
  | .ok c => .ok c
  | .error _ => .error (.typeError resourceParseErrorInitMsg)

/-- One `for` iteration over a raw item list, skipping items the loop body
`continue`s over, propagating exceptions. -/
def tryParseList {α : Type} (f : PyVal → Except PyExc (Option α)) (raw : PyVal) :
    Except PyExc (List α) := do
  let xs ← match raw with
    | .list xs => pure xs
    | _ => Except.error (.typeError "object is not iterable")
  xs.foldlM (fun acc x => do
    match ← f x with
    | some r => pure (acc ++ [r])
    | Option.none => pure acc) []

/-- Loop body of `parse_namespaces` (resource_parser.py:94-113); `none` is a
skipped (nameless) item. -/
def parseNamespaceItem (cluster_name : String) (ns_data : PyVal) :
    Except PyExc (Option NamespaceInfo) := do
  let nameDefault ← pyGetD ns_data "name" .none
  let meta ← pyGetD ns_data "metadata" (.dict [])
  let name ← pyGetD meta "name" nameDefault
  if !name.truthy then
    return Option.none
  let st ← pyGetD ns_data "status" (.dict [])
  let status ← pyGetD st "phase" (.str "Unknown")
  let labels ← pyGetD meta "labels" (.dict [])
  let annotations ← pyGetD meta "annotations" (.dict [])
  return some ⟨cluster_name, name, status, labels, annotations⟩

/-- `ResourceParser.parse_namespaces` (resource_parser.py:72-127); like every
list parser in the module, its `except` block trips over the unimported
`create_exception_context`, so failures escape as `NameError`. -/
def parse_namespaces (raw_data : PyVal) (cluster_name : String) :
    Except PyExc (List NamespaceInfo) :=
  match tryParseList (parseNamespaceItem cluster_name) raw_data with
  | .ok l => .ok l
  | .error _ => .error (.nameError nameErrorMsg)

/-- Scan of `status.conditions` for the `Ready` condition, with the early
return of `_extract_node_status`. -/
def findReadyCondition : List PyVal → Except PyExc String
  | [] => .ok "Unknown"
  | c :: rest => do
    let t ← pyGetD c "type" .none
    if pyEqStr t "Ready" then
      let s ← pyGetD c "status" .none
      pure (if pyEqStr s "True" then "Ready" else "NotReady")
    else
      findReadyCondition rest

/-- `ResourceParser._extract_node_status` (resource_parser.py:344-350). -/
def extract_node_status (node_data : PyVal) : Except PyExc String := do
  let st ← pyGetD node_data "status" (.dict [])
  let conditions ← pyGetD st "conditions" (.list [])
  let cs ← match conditions with
    | .list xs => pure xs
    | _ => Except.error (.typeError "object is not iterable")
  findReadyCondition cs

/-- Loop body of `parse_nodes` (resource_parser.py:151-183). -/
def parseNodeItem (cluster_name : String) (node_data : PyVal) :
    Except PyExc (Option NodeInfo) := do
  let nameDefault ← pyGetD node_data "name" .none
  let meta ← pyGetD node_data "metadata" (.dict [])
  let name ← pyGetD meta "name" nameDefault
  if !name.truthy then
    return Option.none
  let status ← extract_node_status node_data
  let roles ← extract_node_roles node_data
  let st ← pyGetD node_data "status" (.dict [])
  let capacity ← pyGetD st "capacity" (.dict [])
  let allocatable ← pyGetD st "allocatable" (.dict [])
  let labels ← pyGetD meta "labels" (.dict [])
  let spec ← pyGetD node_data "spec" (.dict [])
  let taints ← pyGetD spec "taints" (.list [])
  return some ⟨cluster_name, name, status, roles, capacity, allocatable,
               labels, taints⟩

/-- `ResourceParser.parse_nodes` (resource_parser.py:129-197). -/
def parse_nodes (raw_data : PyVal) (cluster_name : String) :
    Except PyExc (List NodeInfo) :=
  match tryParseList (parseNodeItem cluster_name) raw_data with
  | .ok l => .ok l
  | .error _ => .error (.nameError nameErrorMsg)

/-- Loop body of `parse_pods` (resource_parser.py:221-254). -/
def parsePodItem (cluster_name : String) (pod_data : PyVal) :
    Except PyExc (Option PodInfo) := do
  let meta ← pyGetD pod_data "metadata" (.dict [])
  let name ← pyGetD meta "name" .none
  let nspace ← pyGetD meta "namespace" (.str "default")
  if !name.truthy then
    return Option.none
  let status_info ← pyGetD pod_data "status" (.dict [])
  let phase ← pyGetD status_info "phase" (.str "Unknown")
  let status ← extract_pod_status pod_data
  let spec ← pyGetD pod_data "spec" (.dict [])
  let node_name ← pyGetD spec "nodeName" .none
  let labels ← pyGetD meta "labels" (.dict [])
  let containers ← extract_container_info pod_data
  return some ⟨cluster_name, nspace, name, status, phase, node_name,
               labels, containers⟩

/-- `ResourceParser.parse_pods` (resource_parser.py:199-268). -/
def parse_pods (raw_data : PyVal) (cluster_name : String) :
    Except PyExc (List PodInfo) :=
  match tryParseList (parsePodItem cluster_name) raw_data with
  | .ok l => .ok l
  | .error _ => .error (.nameError nameErrorMsg)

/-- Loop body of `parse_services` (resource_parser.py:292-328). -/
def parseServiceItem (cluster_name : String) (svc_data : PyVal) :
    Except PyExc (Option ServiceInfo) := do
  let meta ← pyGetD svc_data "metadata" (.dict [])
  let name ← pyGetD meta "name" .none
  let nspace ← pyGetD meta "namespace" (.str "default")
  if !name.truthy then
    return Option.none
  let spec ← pyGetD svc_data "spec" (.dict [])
  let service_type ← pyGetD spec "type" (.str "ClusterIP")
  let cluster_ip ← pyGetD spec "clusterIP" .none
  let selector ← pyGetD spec "selector" (.dict [])
  let ports ← pyGetD spec "ports" (.list [])
  let external_ip ←
    if pyEqStr service_type "LoadBalancer" then do
      let status ← pyGetD svc_data "status" (.dict [])
      let lb ← pyGetD status "loadBalancer" (.dict [])
      let ingress ← pyGetD lb "ingress" (.list [])
      if ingress.truthy then
        match ingress with
        | .list (x :: _) => pyGetD x "ip" .none
        | _ => Except.error (.typeError "object is not subscriptable")
      else
        pure PyVal.none
    else
      pure PyVal.none
  return some ⟨cluster_name, nspace, name, service_type, cluster_ip,
               external_ip, ports, selector⟩

/-- `ResourceParser.parse_services` (resource_parser.py:270-342). -/
def parse_services (raw_data : PyVal) (cluster_name : String) :
    Except PyExc (List ServiceInfo) :=
  match tryParseList (parseServiceItem cluster_name) raw_data with
  | .ok l => .ok l
  | .error _ => .error (.nameError nameErrorMsg)

/-- Loop body of `parse_configmaps` (resource_parser.py:507-532); the record
is the plain Python dict the source builds, in its insertion order. -/
def parseConfigMapItem (cluster_name : String) (cm_data : PyVal) :
    Except PyExc (Option (List (String × PyVal))) := do
  let meta ← pyGetD cm_data "metadata" (.dict [])
  let name ← pyGetD meta "name" .none
  let nspace ← pyGetD meta "namespace" (.str "default")
  if !name.truthy then
    return Option.none
  let data ← pyGetD cm_data "data" (.dict [])
  let binary_data ← pyGetD cm_data "binaryData" (.dict [])
  let dkvs ← match data with
    | .dict kvs => pure kvs
    | _ => Except.error (.attributeError "object has no attribute keys")
  let bkvs ← match binary_data with
    | .dict kvs => pure kvs
    | _ => Except.error (.attributeError "object has no attribute keys")
  let labels ← pyGetD meta "labels" (.dict [])
  let annotations ← pyGetD meta "annotations" (.dict [])
  return some [("cluster_name", .str cluster_name),
               ("namespace", nspace),
               ("name", name),
               ("data_keys", .list (dkvs.map fun kv => .str kv.1)),
               ("binary_data_keys", .list (bkvs.map fun kv => .str kv.1)),
               ("total_keys", .int ((dkvs.length : Int) + (bkvs.length : Int))),
               ("labels", labels),
               ("annotations", annotations)]

/-- `ResourceParser.parse_configmaps` (resource_parser.py:485-546); also
reused verbatim for secrets by the coordinator. -/
def parse_configmaps (raw_data : PyVal) (cluster_name : String) :
    Except PyExc (List (List (String × PyVal))) :=
  match tryParseList (parseConfigMapItem cluster_name) raw_data with
  | .ok l => .ok l
  | .error _ => .error (.nameError nameErrorMsg)

/-!  Cluster Scanner (`cluster_scanner.py`).  The tool-invocation agent
(`MCPAgent.run`, from the external `mcp_use` package) is opaque; it is
modelled as an oracle from the built instruction text to an outcome. -/

/-- Outcome of one `agent.run(instruction, max_steps=30)` call under
`asyncio.wait_for`: a reply, a wall-clock timeout, a `ConnectionError`,
or any other exception. -/
inductive AgentOutcome where
  | ok (v : PyVal)
  | timeout
  | connectionError (msg : String)
  | failure (msg : String)

/-- The opaque tool-invocation agent, as a function of the instruction. -/
def Agent : Type := String → AgentOutcome

/-- The `" ".join(f"k=v" ...)` parameter rendering of `_call_mcp_tool`. -/
def paramStr (params : List (String × String)) : String :=
  String.intercalate " " (params.map fun kv => kv.1 ++ "=" ++ kv.2)

/-- Instruction text built by `_call_mcp_tool` (cluster_scanner.py:297-302). -/
def buildInstruction (tool_name : String) (params : List (String × String)) :
    String :=
  if params.isEmpty then
    "使用 " ++ tool_name ++ " 工具获取K8s集群信息"
  else
    "使用 " ++ tool_name ++ " 工具，参数: " ++ paramStr params

/-- `ClusterScanner._call_mcp_tool` (cluster_scanner.py:275-346): dispatches
the instruction to the agent and maps failures to the typed scan errors. -/
def call_mcp_tool (agent : Agent) (tool_name : String)
    (params : List (String × String)) : Except PyExc PyVal :=
  match agent (buildInstruction tool_name params) with
  | .ok v => .ok v
  | .timeout => .error (.scanTimeoutError ("MCP工具调用超时: " ++ tool_name))
  | .connectionError m => .error (.clusterConnectionError ("集群连接失败: " ++ m))
  | .failure m => .error (.scanError ("MCP工具调用失败: " ++ m))

/-- `result.get('items', []) if isinstance(result, dict) else []`. -/
def getItems : PyVal → PyVal
  | .dict kvs => lookupD kvs "items" (.list [])
  | _ => .list []

/-- `cluster_name or 'default-cluster'`. -/
def clusterParam (cluster_name : Option String) : String :=
  match cluster_name with
  | some s => if s = "" then "default-cluster" else s
  | Option.none => "default-cluster"

/-- The parameter dict of the dynamic sub-scans, with the optional
namespace appended only when truthy. -/
def dynParams (cluster_name nspace : Option String)
    (apiVersion kind : String) : List (String × String) :=
  [("apiVersion", apiVersion), ("cluster", clusterParam cluster_name),
   ("kind", kind)] ++
  (match nspace with
   | some s => if s = "" then [] else [("namespace", s)]
   | Option.none => [])

/-- The `try` body of `ClusterScanner.scan_static_resources`
(cluster_scanner.py:85-100). -/
def tryScanStatic (agent : Agent) (cluster_name : Option String) :
    Except PyExc PyVal := do
  let c ← call_mcp_tool agent "GET_CLUSTER_INFO"
    [("cluster", clusterParam cluster_name)]
  let nss ← call_mcp_tool agent "LIST_NAMESPACES"
    [("cluster", clusterParam cluster_name)]
  let nds ← call_mcp_tool agent "LIST_NODES"
    [("cluster", clusterParam cluster_name)]
  return .dict [("cluster", c), ("namespaces", getItems nss),
                ("nodes", getItems nds)]

/-- `ClusterScanner.scan_static_resources` (cluster_scanner.py:68-110):
catches every exception of the sub-scans — a `ScanTimeoutError` included —
and re-raises a generic `ScanError` wrapping `str(e)`. -/
def scan_static_resources (agent : Agent) (cluster_name : Option String) :
    Except PyExc PyVal :=
  match tryScanStatic agent cluster_name with
  | .ok v => .ok v
  | .error e => .error (.scanError ("静态资源扫描失败: " ++ e.msg))

/-- The `try` body of `ClusterScanner.scan_dynamic_resources`
(cluster_scanner.py:131-152). -/
def tryScanDynamic (agent : Agent) (cluster_name nspace : Option String) :
    Except PyExc PyVal := do
  let pods ← call_mcp_tool agent "LIST_CORE_RESOURCES"
    (dynParams cluster_name nspace "v1" "Pod")
  let services ← call_mcp_tool agent "LIST_CORE_RESOURCES"
    (dynParams cluster_name nspace "v1" "Service")
  let deployments ← call_mcp_tool agent "LIST_APPS_RESOURCES"
    (dynParams cluster_name nspace "apps/v1" "Deployment")
  let configmaps ← call_mcp_tool agent "LIST_CORE_RESOURCES"
    (dynParams cluster_name nspace "v1" "ConfigMap")
  let secrets ← call_mcp_tool agent "LIST_CORE_RESOURCES"
    (dynParams cluster_name nspace "v1" "Secret")
  return .dict [("pods", getItems pods), ("services", getItems services),
                ("deployments", getItems deployments),
                ("configmaps", getItems configmaps),
                ("secrets", getItems secrets)]

/-- `ClusterScanner.scan_dynamic_resources` (cluster_scanner.py:112-163);
same blanket `except` wrap as the static variant. -/
def scan_dynamic_resources (agent : Agent) (cluster_name nspace : Option String) :
    Except PyExc PyVal :=
  match tryScanDynamic agent cluster_name nspace with
  | .ok v => .ok v
  | .error e => .error (.scanError ("动态资源扫描失败: " ++ e.msg))

/-!  Scan Coordinator (`scan_coordinator.py`).  The record store
(`CacheManager`, part of the missing `src/cache` package) is modelled from
the spec as an append-only sink of `(table, record)` writes; wall-clock
sleeping is logged as the argument passed to `asyncio.sleep`. -/

/-- A record handed to `CacheManager.create_record`.  The dataclass records
go through a `to_dict()` (missing `src/cache/models.py`); the structures
are stored directly, which is faithful up to that serialization.  ConfigMap,
secret-metadata and cache-metadata records are plain Python dicts in the
source and are stored as such. -/
inductive StoredRec where
  | cluster (c : ClusterInfo)
  | nspace (n : NamespaceInfo)
  | node (n : NodeInfo)
  | pod (p : PodInfo)
  | service (s : ServiceInfo)
  | pyDict (kvs : List (String × PyVal))

/-- One `create_record(table, record)` call. -/
abbrev Write := String × StoredRec

/-- `ScanCoordinator._parse_and_store_static` (scan_coordinator.py:171-205):
returns the per-kind counts dict and the records created.  When a later
branch fails, the source has already issued the writes of the earlier
branches; no claim concerns those partial writes, so the model reports
writes only with success. -/
def parse_and_store_static (raw_data : PyVal) (cluster_name : String) :
    Except PyExc (List (String × Nat) × List Write) := do
  let kvs ← match raw_data with
    | .dict kvs => pure kvs
    | _ => Except.error (.typeError "argument is not a container")
  let (r1, w1) ←
    if containsKey kvs "cluster" then do
      let ci ← parse_cluster_info (lookupD kvs "cluster" .none) (some cluster_name)
      pure ([("clusters", 1)], [(("clusters" : String), StoredRec.cluster ci)])
    else pure ([], [])
  let (r2, w2) ←
    if containsKey kvs "namespaces" then do
      let nss ← parse_namespaces (lookupD kvs "namespaces" .none) cluster_name
      pure ([("namespaces", nss.length)],
            nss.map fun n => (("namespaces" : String), StoredRec.nspace n))
    else pure ([], [])
  let (r3, w3) ←
    if containsKey kvs "nodes" then do
      let nds ← parse_nodes (lookupD kvs "nodes" .none) cluster_name
      pure ([("nodes", nds.length)],
            nds.map fun n => (("nodes" : String), StoredRec.node n))
    else pure ([], [])
  return (r1 ++ r2 ++ r3, w1 ++ w2 ++ w3)

/-- The secret-metadata projection of `_parse_and_store_dynamic`
(scan_coordinator.py:250-257): of a parsed secret record, only
cluster_name, namespace, name, total_keys and labels are retained.
The parser always populates these keys, so the `Python KeyError` of a
missing key cannot fire on pipeline values. -/
def buildSecretMeta (secret : List (String × PyVal)) : List (String × PyVal) :=
  [("cluster_name", lookupD secret "cluster_name" .none),
   ("namespace", lookupD secret "namespace" .none),
   ("name", lookupD secret "name" .none),
   ("total_keys", lookupD secret "total_keys" .none),
   ("labels", lookupD secret "labels" .none)]

/-- `ScanCoordinator._parse_and_store_dynamic` (scan_coordinator.py:207-261).
Note the source has no branch for `deployments`: the scanner's deployments
reply is dropped.  Secrets reuse `parse_configmaps` and are stored redacted
through `buildSecretMeta`. -/
def parse_and_store_dynamic (raw_data : PyVal) (cluster_name : String) :
    Except PyExc (List (String × Nat) × List Write) := do
  let kvs ← match raw_data with
    | .dict kvs => pure kvs
    | _ => Except.error (.typeError "argument is not a container")
  let (r1, w1) ←
    if containsKey kvs "pods" then do
      let pods ← parse_pods (lookupD kvs "pods" .none) cluster_name
      pure ([("pods", pods.length)],
            pods.map fun p => (("pods" : String), StoredRec.pod p))
    else pure ([], [])
  let (r2, w2) ←
    if containsKey kvs "services" then do
      let svcs ← parse_services (lookupD kvs "services" .none) cluster_name
      pure ([("services", svcs.length)],
            svcs.map fun s => (("services" : String), StoredRec.service s))
    else pure ([], [])
  let (r3, w3) ←
    if containsKey kvs "configmaps" then do
      let cms ← parse_configmaps (lookupD kvs "configmaps" .none) cluster_name
      pure ([("configmaps", cms.length)],
            cms.map fun cm => (("configmaps" : String), StoredRec.pyDict cm))
    else pure ([], [])
  let (r4, w4) ←
    if containsKey kvs "secrets" then do
      let secrets ← parse_configmaps (lookupD kvs "secrets" .none) cluster_name
      pure ([("secrets", secrets.length)],
            secrets.map fun s =>
              (("secrets" : String), StoredRec.pyDict (buildSecretMeta s)))
    else pure ([], [])
  return (r1 ++ r2 ++ r3 ++ r4, w1 ++ w2 ++ w3 ++ w4)

/-- The per-tier result dict of `_scan_static_with_retry` and
`_scan_dynamic_with_retry`: either success with the parsed counts (`data`)
or failure with `str(e)`.  `attempt` is the 1-based number of the attempt
that ended the loop. -/
inductive TierResult where
  | ok (attempt : Nat) (data : List (String × Nat))
  | fail (attempt : Nat) (error : String)

/-- The coordinator statistics read the tier dict with `.get('data', {})`,
which is empty for a failure dict. -/
def TierResult.dataD : TierResult → List (String × Nat)
  | .ok _ d => d
  | .fail _ _ => []

/-- What one tier retry loop produces: the tier result dict, the store
writes of the successful attempt, and the arguments of the backoff sleeps
issued between attempts. -/
structure RetryOutcome where
  result : TierResult
  writes : List Write
  sleeps : List Nat

/-- The retry loop shared by `_scan_static_with_retry` and
`_scan_dynamic_with_retry` (scan_coordinator.py:113-169): attempt `i`
(0-based); on an exception, if attempts remain sleep
`retry_delay * (i + 1)` and recurse, else record the failure with
`attempt = i + 1`.  `fuel` is the number of retries still allowed
(`max_retries - i`). -/
def runRetry (attempt : Nat → Except PyExc (List (String × Nat) × List Write))
    (retry_delay : Nat) : Nat → Nat → RetryOutcome
  | i, 0 =>
    (match attempt i with
     | .ok (counts, ws) => ⟨.ok (i + 1) counts, ws, []⟩
     | .error e => ⟨.fail (i + 1) e.msg, [], []⟩)
  | i, fuel + 1 =>
    (match attempt i with
     | .ok (counts, ws) => ⟨.ok (i + 1) counts, ws, []⟩
     | .error _ =>
       let rest := runRetry attempt retry_delay (i + 1) fuel
       ⟨rest.result, rest.writes, retry_delay * (i + 1) :: rest.sleeps⟩)

/-- One static-tier attempt: scan, then parse and store
(scan_coordinator.py:116-121). -/
def staticAttempt (staticScan : Nat → Except PyExc PyVal)
    (cluster_name : String) (i : Nat) :
    Except PyExc (List (String × Nat) × List Write) := do
  let raw ← staticScan i
  parse_and_store_static raw cluster_name

/-- One dynamic-tier attempt (scan_coordinator.py:147-152). -/
def dynamicAttempt (dynamicScan : Nat → Except PyExc PyVal)
    (cluster_name : String) (i : Nat) :
    Except PyExc (List (String × Nat) × List Write) := do
  let raw ← dynamicScan i
  parse_and_store_dynamic raw cluster_name

/-- `ScanCoordinator._scan_static_with_retry` (scan_coordinator.py:113-142),
with the scanner abstracted as an attempt-indexed oracle. -/
def scan_static_with_retry (staticScan : Nat → Except PyExc PyVal)
    (cluster_name : String) (max_retries retry_delay : Nat) : RetryOutcome :=
  runRetry (staticAttempt staticScan cluster_name) retry_delay 0 max_retries

/-- `ScanCoordinator._scan_dynamic_with_retry` (scan_coordinator.py:144-169). -/
def scan_dynamic_with_retry (dynamicScan : Nat → Except PyExc PyVal)
    (cluster_name : String) (max_retries retry_delay : Nat) : RetryOutcome :=
  runRetry (dynamicAttempt dynamicScan cluster_name) retry_delay 0 max_retries

/-- Modelled from the spec: the `CacheMetadata` row of the missing
`src/cache`, restricted to the fields `_update_scan_status` sets and the
claims mention (the wall-clock `last_scan_at`/`next_scan_at` timestamps are
not represented). -/
structure MetaWrite where
  table_name : String
  scan_status : String
  error_message : Option String

/-- `ScanCoordinator._update_scan_status` (scan_coordinator.py:263-289):
appends one metadata row `{resource_type}_scan`; a store failure would be
swallowed, so the write never disturbs the main flow. -/
def updateScanStatus (resource_type status : String)
    (error_message : Option String) : MetaWrite :=
  ⟨resource_type ++ "_scan", status, error_message⟩

/-- Python dict insertion `d[k] = v`: overwrite in place, else append. -/
def dictInsertNat : List (String × Nat) → String → Nat → List (String × Nat)
  | [], k, v => [(k, v)]
  | (k0, v0) :: rest, k, v =>
    if k0 = k then (k0, v) :: rest else (k0, v0) :: dictInsertNat rest k v

/-- Sum of the counts of a per-kind count dict. -/
def sumCounts (l : List (String × Nat)) : Nat := (l.map Prod.snd).sum

/-- The aggregate `statistics` dict. -/
structure ScanStats where
  total_resources : Nat
  static_resources : Nat
  dynamic_resources : Nat
  resource_breakdown : List (String × Nat)

/-- The `.get('data', {})` read of a possibly missing tier dict. -/
def tierData : Option TierResult → List (String × Nat)
  | some t => t.dataD
  | Option.none => []

/-- `ScanCoordinator._calculate_scan_statistics`
(scan_coordinator.py:300-323). -/
def calculate_scan_statistics (staticRes dynRes : Option TierResult) :
    ScanStats :=
  let sd := tierData staticRes
  let dd := tierData dynRes
  let bd0 := sd.foldl (fun acc kv => dictInsertNat acc kv.1 kv.2) []
  let bd := dd.foldl (fun acc kv => dictInsertNat acc kv.1 kv.2) bd0
  { total_resources := sumCounts sd + sumCounts dd
  , static_resources := sumCounts sd
  , dynamic_resources := sumCounts dd
  , resource_breakdown := bd }

/-- The `results` dict returned by `scan_cluster_full` (timing fields are
wall-clock and not represented; a missing tier keeps its initial `{}`,
modelled as `Option.none`). -/
structure ScanResults where
  cluster_name : String
  static_resources : Option TierResult
  dynamic_resources : Option TierResult
  statistics : ScanStats

/-- Everything one `scan_cluster_full` call produces: the returned (or
raised) result, the metadata rows, the record writes and the backoff
sleeps, in order. -/
structure FullScanOut where
  result : Except PyExc ScanResults
  metaWrites : List MetaWrite
  writes : List Write
  sleeps : List Nat

/-- `ScanCoordinator.scan_cluster_full` (scan_coordinator.py:55-111).
The outer `except` (which would write a failed `all_scan` row and re-raise)
is unreachable here: the tier wrappers catch their own exceptions and
return failure dicts, and every remaining operation of the `try` body is
total, so the call always returns its results dict. -/
def scan_cluster_full (staticScan dynamicScan : Nat → Except PyExc PyVal)
    (cluster_name : String) (include_static include_dynamic : Bool)
    (max_retries retry_delay : Nat) : FullScanOut :=
  let sPart :=
    if include_static then
      let out := scan_static_with_retry staticScan cluster_name
                   max_retries retry_delay
      (some out.result,
       [updateScanStatus "static" "running" Option.none,
        updateScanStatus "static" "completed" Option.none],
       out.writes, out.sleeps)
    else (Option.none, [], [], [])
  let dPart :=
    if include_dynamic then
      let out := scan_dynamic_with_retry dynamicScan cluster_name
                   max_retries retry_delay
      (some out.result,
       [updateScanStatus "dynamic" "running" Option.none,
        updateScanStatus "dynamic" "completed" Option.none],
       out.writes, out.sleeps)
    else (Option.none, [], [], [])
  { result := .ok
      { cluster_name := cluster_name
      , static_resources := sPart.1
      , dynamic_resources := dPart.1
      , statistics := calculate_scan_statistics sPart.1 dPart.1 }
  , metaWrites := sPart.2.1 ++ dPart.2.1
  , writes := sPart.2.2.1 ++ dPart.2.2.1
  , sleeps := sPart.2.2.2 ++ dPart.2.2.2 }

/-!  Concrete inputs and statement-support definitions. -/

/-- The last status entry whose `name` matches, the per-container view of
the `status_map` lookup (a later duplicate overwrites an earlier one). -/
def lastMatching (name : PyVal) (ss : List (List (String × PyVal))) :
    Option (List (String × PyVal)) :=
  ss.reverse.find? fun s => pyKeyEq (lookupD s "name" .none) name

/-- The container entry `_extract_container_info` should emit for one spec
container, characterized per element: name/image from the spec container,
ready/restartCount from the last matching status entry, defaulting to
`False`/`0`. -/
def entryFor (c : List (String × PyVal))
    (ss : List (List (String × PyVal))) : PyVal :=
  let name := lookupD c "name" .none
  let image := lookupD c "image" .none
  match lastMatching name ss with
  | some s =>
      .dict [("name", name), ("image", image),
             ("ready", lookupD s "ready" (.bool false)),
             ("restartCount", lookupD s "restartCount" (.int 0))]
  | Option.none =>
      .dict [("name", name), ("image", image),
             ("ready", .bool false), ("restartCount", .int 0)]

/-- A pod reply whose spec containers and container statuses are the given
dicts. -/
def mkPod (cs ss : List (List (String × PyVal))) : PyVal :=
  .dict [("spec", .dict [("containers", .list (cs.map PyVal.dict))]),
         ("status", .dict [("containerStatuses", .list (ss.map PyVal.dict))])]

/-- A pod reply with the given `status` dict. -/
def mkStatusPod (st : List (String × PyVal)) : PyVal :=
  .dict [("status", .dict st)]

/-- The `ready` field of a container status entry is absent or a proper
boolean (the shape of real replies). -/
def readyFieldOk (s : List (String × PyVal)) : Bool :=
  match pyLookup s "ready" with
  | Option.none => true
  | some (.bool _) => true
  | some _ => false

/-- `cs.get('ready', False)` is the boolean `True`. -/
def readyIsTrue (s : List (String × PyVal)) : Bool :=
  match lookupD s "ready" (.bool false) with
  | .bool b => b
  | _ => false

/-- A node reply with the given label dict. -/
def mkNode (L : List (String × PyVal)) : PyVal :=
  .dict [("metadata", .dict [("labels", .dict L)])]

/-- A node whose only role label is `node-role.kubernetes.io/infra`. -/
def infraNode : PyVal :=
  mkNode [("node-role.kubernetes.io/infra", .str "true")]

/-- A pod record missing its required `phase` field. -/
def invalidPodRecord : PyVal := .dict [("name", .str "x")]

/-- An agent whose every call exceeds the wall-clock timeout. -/
def timeoutAgent : Agent := fun _ => .timeout

/-- Whether a scanner outcome is a raised `ScanTimeoutError`. -/
def isScanTimeoutErrorResult : Except PyExc PyVal → Bool
  | .error (.scanTimeoutError _) => true
  | _ => false

/-- A tier scan oracle that raises on every attempt. -/
def alwaysFailScan : Nat → Except PyExc PyVal :=
  fun _ => .error (.scanError "boom")

/-- A dynamic scan oracle returning an empty reply (parses to zero
records). -/
def emptyDynScan : Nat → Except PyExc PyVal := fun _ => .ok (.dict [])

/-- A namespace item of the end-to-end scenario. -/
def scenarioNamespace (n : String) : PyVal :=
  .dict [("metadata", .dict [("name", .str n)]),
         ("status", .dict [("phase", .str "Active")])]

/-- A ready node item of the end-to-end scenario. -/
def scenarioNode (n : String) (labels : List (String × PyVal)) : PyVal :=
  .dict [("metadata", .dict [("name", .str n), ("labels", .dict labels)]),
         ("status", .dict [("conditions",
            .list [.dict [("type", .str "Ready"), ("status", .str "True")]])])]

/-- The static-tier reply of the spec's end-to-end scenario: one cluster
record with `nodeCount = 2`, two active namespaces, one master and one
worker node, both ready. -/
def staticScenarioReply : PyVal :=
  .dict [("cluster", .dict [("name", .str "test-cluster"),
                            ("version", .str "v1.23"),
                            ("server", .str "https://api:6443"),
                            ("nodeCount", .int 2)]),
         ("namespaces", .list [scenarioNamespace "default",
                               scenarioNamespace "kube-system"]),
         ("nodes", .list
           [scenarioNode "m1" [("node-role.kubernetes.io/master", .str "")],
            scenarioNode "w1" []])]

/-- A static scan oracle that returns the scenario reply on every attempt. -/
def scenarioScan : Nat → Except PyExc PyVal :=
  fun _ => .ok staticScenarioReply

/-- A raw secret reply with the given metadata, data and binaryData. -/
def mkSecret (m : PyVal) (data binary : List (String × PyVal)) : PyVal :=
  .dict [("metadata", m), ("data", .dict data), ("binaryData", .dict binary)]

/-- A dynamic-tier raw reply carrying only secrets. -/
def mkSecretsRaw (items : List PyVal) : PyVal :=
  .dict [("secrets", .list items)]

/-- Shared metadata of the two secret replies of the redaction witness. -/
def secretMetaExample : PyVal :=
  .dict [("name", .str "db-secret"), ("namespace", .str "prod"),
         ("labels", .dict [("app", .str "db")])]

/-- The role list `_extract_node_roles` computes once the label dict is in
hand, named so the label-dependent part can be reasoned about directly. -/
def nodeRolesOf (L : List (String × PyVal)) : List String :=
  let roles := (["node-role.kubernetes.io/master",
                 "node-role.kubernetes.io/control-plane",
                 "node-role.kubernetes.io/worker"]).filterMap fun label =>
    if containsKey L label then
      some (lastComponent label)
    else
      Option.none
  if roles.isEmpty then ["worker"] else roles

/-- The backoff schedule the retry loop issues from 0-based attempt `i`
with `fuel` retries left: `rd*(i+1), rd*(i+2), ...`. -/
def sleepSchedule (rd i : Nat) : Nat → List Nat
  | 0 => []
  | fuel + 1 => rd * (i + 1) :: sleepSchedule rd (i + 1) fuel

/-- A tier attempt (scan plus parse/store) that raises every time. -/
def alwaysFailAttempt : Nat → Except PyExc (List (String × Nat) × List Write) :=
  fun _ => .error (.scanError "boom")

/-!  Theorems. -/

/-- Claim C6 (failing input): `validate_parsed_data` on a pod record whose
required `phase` field is missing does not raise the `ScanValidationError`
its docstring promises — the `except` block trips over the unimported
`create_exception_context` and a `NameError` escapes instead.  Moreover no
input whatsoever can surface a `ScanValidationError`: every run returns
`True` or raises that `NameError`. -/
theorem validate_raises_nameerror :
    validate_parsed_data invalidPodRecord "pod" ["name", "phase"]
      = .error (.nameError nameErrorMsg)
    ∧ ∀ (data : PyVal) (k : String) (req : List String),
        validate_parsed_data data k req = .ok true
        ∨ validate_parsed_data data k req = .error (.nameError nameErrorMsg) := by
  refine ⟨rfl, ?_⟩
  intro data k req
  unfold validate_parsed_data
  cases tryValidate data k req with
  | ok u => exact Or.inl rfl
  | error e => exact Or.inr rfl

/-- Claim C7 (counterexample): a node whose only role label is
`node-role.kubernetes.io/infra` parses to `roles == ["worker"]`, not to
`["infra"]` as the claim (the spec-worded `spec_node_roles`) predicts:
`_extract_node_roles` probes a fixed list of three labels instead of
matching `node-role.kubernetes.io/*`. -/
theorem node_roles_infra_cex :
    extract_node_roles infraNode = .ok ["worker"]
    ∧ spec_node_roles infraNode = ["infra"]
    ∧ (["worker"] : List String) ≠ ["infra"] :=
  ⟨rfl, rfl, by decide⟩

/-- Claim C7 (amended): the parsed roles are drawn from the fixed label set
`master`/`control-plane`/`worker` only — an arbitrary
`node-role.kubernetes.io/*` label such as `infra` never contributes — with
each of the three labels contributing its suffix when present, and
`["worker"]` exactly when none of the three is present. -/
theorem node_roles_fixed_label_set (L : List (String × PyVal)) :
    ∃ roles, extract_node_roles (mkNode L) = .ok roles
      ∧ (∀ r ∈ roles, r ∈ (["master", "control-plane", "worker"] : List String))
      ∧ ((containsKey L "node-role.kubernetes.io/master" = false
          ∧ containsKey L "node-role.kubernetes.io/control-plane" = false
          ∧ containsKey L "node-role.kubernetes.io/worker" = false)
            → roles = ["worker"])
      ∧ (containsKey L "node-role.kubernetes.io/master" = true
            → "master" ∈ roles)
      ∧ (containsKey L "node-role.kubernetes.io/control-plane" = true
            → "control-plane" ∈ roles)
      ∧ (containsKey L "node-role.kubernetes.io/worker" = true
            → "worker" ∈ roles) := by
  refine ⟨nodeRolesOf L, rfl, ?_⟩
  by_cases h1 : containsKey L "node-role.kubernetes.io/master" = true <;>
    by_cases h2 : containsKey L "node-role.kubernetes.io/control-plane" = true <;>
      by_cases h3 : containsKey L "node-role.kubernetes.io/worker" = true <;>
        simp only [Bool.not_eq_true] at h1 h2 h3 <;>
          simp [nodeRolesOf, h1, h2, h3] <;>
            decide

/-- Claim C4 (counterexample): when every agent call times out, the
exception propagating out of the public `scan_static_resources` is the
generic `ScanError` wrapper, not a `ScanTimeoutError`: the public scan
operations catch all exceptions of their sub-calls and re-raise
`ScanError(f"静态资源扫描失败: ...")`. -/
theorem timeout_wrapped_as_scanerror_cex :
    scan_static_resources timeoutAgent (some "prod")
      = .error (.scanError "静态资源扫描失败: MCP工具调用超时: GET_CLUSTER_INFO")
    ∧ isScanTimeoutErrorResult (scan_static_resources timeoutAgent (some "prod"))
      = false :=
  ⟨rfl, rfl⟩

/-- Claim C3 (counterexample): a static-only scan whose tier fails all
four attempts (max_retries = 3) still gets terminal metadata status
`"completed"`, not `"failed"`: the retry wrapper returns a failure dict
instead of raising, so `scan_cluster_full` always reaches the
`"completed"` status write of that tier. -/
theorem tier_metadata_completed_on_failure_cex :
    (scan_cluster_full alwaysFailScan alwaysFailScan "c" true false 3 5).metaWrites
      = [⟨"static_scan", "running", Option.none⟩,
         ⟨"static_scan", "completed", Option.none⟩]
    ∧ (scan_cluster_full alwaysFailScan alwaysFailScan "c" true false 3 5).result
      = .ok ⟨"c", some (.fail 4 "boom"), Option.none, ⟨0, 0, 0, []⟩⟩ :=
  ⟨rfl, rfl⟩

/-- The backoff schedule is the linear ramp `rd * (i + k + 1)` for
`k < fuel`. -/
theorem sleepSchedule_eq_map (rd : Nat) :
    ∀ (fuel i : Nat),
      sleepSchedule rd i fuel = (List.range fuel).map fun k => rd * (i + k + 1) := by
  intro fuel
  induction fuel with
  | zero => intro i; rfl
  | succ n ih =>
    intro i
    rw [show sleepSchedule rd i (n + 1)
          = rd * (i + 1) :: sleepSchedule rd (i + 1) n from rfl,
        ih (i + 1), List.range_succ_eq_map, List.map_cons, List.map_map]
    refine congrArg₂ _ (by ring) (List.map_congr_left ?_)
    intro a _
    simp only [Function.comp_apply, Nat.succ_eq_add_one]
    ring

/-- For a positive delay the backoff schedule is strictly increasing. -/
theorem sleepSchedule_chain (rd : Nat) (hrd : 0 < rd) :
    ∀ (fuel i : Nat), List.Chain' (· < ·) (sleepSchedule rd i fuel) := by
  intro fuel
  induction fuel with
  | zero => intro i; exact List.chain'_nil
  | succ n ih =>
    intro i
    cases n with
    | zero => simp [sleepSchedule]
    | succ m =>
      rw [show sleepSchedule rd i (m + 1 + 1)
            = rd * (i + 1) :: rd * (i + 1 + 1) :: sleepSchedule rd (i + 1 + 1) m
          from rfl]
      refine List.chain'_cons.mpr ⟨?_, ?_⟩
      · exact mul_lt_mul_of_pos_left (by omega) hrd
      · exact ih (i + 1)

/-- An attempt function failing with one fixed exception drives the retry
loop to the recorded failure carrying that exception's message. -/
theorem runRetry_constFail
    (attempt : Nat → Except PyExc (List (String × Nat) × List Write))
    (rd : Nat) (e : PyExc) (hfail : ∀ j, attempt j = .error e) :
    ∀ (fuel i : Nat),
      runRetry attempt rd i fuel
        = ⟨.fail (i + fuel + 1) e.msg, [], sleepSchedule rd i fuel⟩ := by
  intro fuel
  induction fuel with
  | zero =>
    intro i
    simp [runRetry, hfail i, sleepSchedule]
  | succ n ih =>
    intro i
    simp only [runRetry, hfail i, ih (i + 1), sleepSchedule]
    have harith : i + 1 + n + 1 = i + (n + 1) + 1 := by omega
    rw [harith]

/-- An all-failing attempt function drives the retry loop to the recorded
failure after `fuel + 1` attempts, with the full backoff schedule and no
writes. -/
theorem runRetry_allFail
    (attempt : Nat → Except PyExc (List (String × Nat) × List Write))
    (rd : Nat) (hfail : ∀ j, ∃ e, attempt j = .error e) :
    ∀ (fuel i : Nat), ∃ emsg,
      runRetry attempt rd i fuel
        = ⟨.fail (i + fuel + 1) emsg, [], sleepSchedule rd i fuel⟩ := by
  intro fuel
  induction fuel with
  | zero =>
    intro i
    obtain ⟨e, he⟩ := hfail i
    exact ⟨e.msg, by simp [runRetry, he, sleepSchedule]⟩
  | succ n ih =>
    intro i
    obtain ⟨e, he⟩ := hfail i
    obtain ⟨emsg, hrest⟩ := ih (i + 1)
    refine ⟨emsg, ?_⟩
    simp only [runRetry, he, hrest, sleepSchedule]
    have harith : i + 1 + n + 1 = i + (n + 1) + 1 := by omega
    rw [harith]

/-- Claim C2: with a Scanner (or parse/store) that raises on every attempt,
the retry loop makes exactly `max_retries + 1` attempts — recording the
failure with `attempt = max_retries + 1` — and sleeps
`retry_delay * (attempt_index + 1)` between consecutive attempts, a
strictly increasing schedule whenever `retry_delay > 0`. -/
theorem retry_bound_linear_backoff
    (attempt : Nat → Except PyExc (List (String × Nat) × List Write))
    (mr rd : Nat) (hfail : ∀ j, ∃ e, attempt j = .error e) :
    ∃ emsg,
      (runRetry attempt rd 0 mr).result = .fail (mr + 1) emsg
      ∧ (runRetry attempt rd 0 mr).sleeps
          = (List.range mr).map (fun k => rd * (k + 1))
      ∧ (0 < rd → List.Chain' (· < ·) (runRetry attempt rd 0 mr).sleeps) := by
  obtain ⟨emsg, h⟩ := runRetry_allFail attempt rd hfail mr 0
  simp only [Nat.zero_add] at h
  refine ⟨emsg, ?_, ?_, ?_⟩
  · rw [h]
  · rw [h, sleepSchedule_eq_map]
    simp [Nat.zero_add]
  · intro hrd
    rw [h]
    exact sleepSchedule_chain rd hrd mr 0

/-- Claim C2 witness: an always-raising attempt with `max_retries = 3`,
`retry_delay = 5` fails on attempt 4 after sleeping 5, 10, 15. -/
theorem retry_bound_linear_backoff_witness :
    (∀ j, ∃ e, alwaysFailAttempt j = Except.error e)
    ∧ ∃ emsg,
        (runRetry alwaysFailAttempt 5 0 3).result = .fail (3 + 1) emsg
        ∧ (runRetry alwaysFailAttempt 5 0 3).sleeps
            = (List.range 3).map (fun k => 5 * (k + 1))
        ∧ (0 < 5 → List.Chain' (· < ·) (runRetry alwaysFailAttempt 5 0 3).sleeps) :=
  ⟨fun _ => ⟨.scanError "boom", rfl⟩,
   retry_bound_linear_backoff alwaysFailAttempt 3 5
     (fun _ => ⟨.scanError "boom", rfl⟩)⟩

/-- Claim C1: when every static-tier attempt raises, `scan_cluster_full`
still returns (nothing is raised), the static tier entry is the recorded
failure dict, the dynamic tier still executes and its retry result appears
in the returned results, and the failed tier contributes zero records to
the statistics. -/
theorem tier_independence_static_failure
    (staticScan dynamicScan : Nat → Except PyExc PyVal) (cluster : String)
    (mr rd : Nat)
    (hfail : ∀ i, ∃ e, staticAttempt staticScan cluster i = .error e) :
    ∃ res emsg,
      (scan_cluster_full staticScan dynamicScan cluster true true mr rd).result
        = .ok res
      ∧ res.static_resources = some (.fail (mr + 1) emsg)
      ∧ res.dynamic_resources
          = some (scan_dynamic_with_retry dynamicScan cluster mr rd).result
      ∧ res.statistics.static_resources = 0
      ∧ res.statistics.total_resources = res.statistics.dynamic_resources := by
  obtain ⟨emsg, h⟩ :=
    runRetry_allFail (staticAttempt staticScan cluster) rd hfail mr 0
  simp only [Nat.zero_add] at h
  have hs : scan_static_with_retry staticScan cluster mr rd
      = ⟨.fail (mr + 1) emsg, [], sleepSchedule rd 0 mr⟩ := h
  refine ⟨_, emsg, rfl, ?_, ?_, ?_, ?_⟩ <;>
    simp [scan_cluster_full, hs, calculate_scan_statistics, tierData,
          TierResult.dataD, sumCounts]

/-- Claim C1 witness: a static oracle that always raises combined with a
dynamic oracle returning an empty reply. -/
theorem tier_independence_static_failure_witness :
    (∀ i, ∃ e, staticAttempt alwaysFailScan "c" i = Except.error e)
    ∧ ∃ res emsg,
        (scan_cluster_full alwaysFailScan emptyDynScan "c" true true 3 5).result
          = .ok res
        ∧ res.static_resources = some (.fail (3 + 1) emsg)
        ∧ res.dynamic_resources
            = some (scan_dynamic_with_retry emptyDynScan "c" 3 5).result
        ∧ res.statistics.static_resources = 0
        ∧ res.statistics.total_resources = res.statistics.dynamic_resources :=
  ⟨fun _ => ⟨.scanError "boom", rfl⟩,
   tier_independence_static_failure alwaysFailScan emptyDynScan "c" 3 5
     (fun _ => ⟨.scanError "boom", rfl⟩)⟩

/-- Claim C3 (amended): for every tier the coordinator writes a `"running"`
metadata row immediately before running the tier and a terminal row
immediately after it — but the terminal status is always `"completed"`,
whether or not the tier failed; a `"failed"` row would be written only for
an exception escaping the non-tier part of `scan_cluster_full`, which the
tier wrappers make unreachable. -/
theorem tier_metadata_running_completed
    (staticScan dynamicScan : Nat → Except PyExc PyVal) (cluster : String)
    (inc_s inc_d : Bool) (mr rd : Nat) :
    (scan_cluster_full staticScan dynamicScan cluster inc_s inc_d mr rd).metaWrites
      = (if inc_s then
           [updateScanStatus "static" "running" Option.none,
            updateScanStatus "static" "completed" Option.none]
         else [])
        ++ (if inc_d then
              [updateScanStatus "dynamic" "running" Option.none,
               updateScanStatus "dynamic" "completed" Option.none]
            else []) := by
  cases inc_s <;> cases inc_d <;> rfl

/-- Claim C4 (amended): an agent call exceeding the wall-clock timeout
surfaces as `ScanTimeoutError` from `_call_mcp_tool`, but the public
`scan_static_resources` re-wraps it as a generic `ScanError` whose message
embeds the timeout message; at the coordinator the tier ends as a recorded
failure carrying that message — nothing is raised. -/
theorem timeout_propagation_amended (agent : Agent) (cn : Option String)
    (h : agent (buildInstruction "GET_CLUSTER_INFO"
                  [("cluster", clusterParam cn)]) = .timeout) :
    call_mcp_tool agent "GET_CLUSTER_INFO" [("cluster", clusterParam cn)]
      = .error (.scanTimeoutError ("MCP工具调用超时: " ++ "GET_CLUSTER_INFO"))
    ∧ scan_static_resources agent cn
        = .error (.scanError
            ("静态资源扫描失败: " ++ ("MCP工具调用超时: " ++ "GET_CLUSTER_INFO")))
    ∧ ∀ (cluster : String) (mr rd : Nat)
        (dynScan : Nat → Except PyExc PyVal),
        ∃ res,
          (scan_cluster_full (fun _ => scan_static_resources agent cn) dynScan
              cluster true false mr rd).result = .ok res
          ∧ res.static_resources
              = some (.fail (mr + 1)
                  ("静态资源扫描失败: "
                    ++ ("MCP工具调用超时: " ++ "GET_CLUSTER_INFO")))
          ∧ res.dynamic_resources = Option.none := by
  have h1 : call_mcp_tool agent "GET_CLUSTER_INFO" [("cluster", clusterParam cn)]
      = .error (.scanTimeoutError ("MCP工具调用超时: " ++ "GET_CLUSTER_INFO")) := by
    unfold call_mcp_tool
    rw [h]
  have h2 : scan_static_resources agent cn
      = .error (.scanError
          ("静态资源扫描失败: " ++ ("MCP工具调用超时: " ++ "GET_CLUSTER_INFO"))) := by
    unfold scan_static_resources tryScanStatic
    rw [h1]
    rfl
  refine ⟨h1, h2, ?_⟩
  intro cluster mr rd dynScan
  have hconst : ∀ i,
      staticAttempt (fun _ => scan_static_resources agent cn) cluster i
        = .error (.scanError
            ("静态资源扫描失败: "
              ++ ("MCP工具调用超时: " ++ "GET_CLUSTER_INFO"))) := by
    intro i
    unfold staticAttempt
    rw [h2]
    rfl
  have hr :=
    runRetry_constFail
      (staticAttempt (fun _ => scan_static_resources agent cn) cluster) rd _
      hconst mr 0
  simp only [Nat.zero_add] at hr
  have hs : scan_static_with_retry (fun _ => scan_static_resources agent cn)
        cluster mr rd
      = ⟨.fail (mr + 1)
          ("静态资源扫描失败: " ++ ("MCP工具调用超时: " ++ "GET_CLUSTER_INFO")),
         [], sleepSchedule rd 0 mr⟩ := hr
  exact ⟨_, rfl, by simp [scan_cluster_full, hs], rfl⟩

/-- Claim C4 witness: an agent whose every call times out, on cluster
`prod`. -/
theorem timeout_propagation_amended_witness :
    timeoutAgent (buildInstruction "GET_CLUSTER_INFO"
        [("cluster", clusterParam (some "prod"))]) = AgentOutcome.timeout
    ∧ (call_mcp_tool timeoutAgent "GET_CLUSTER_INFO"
          [("cluster", clusterParam (some "prod"))]
        = .error (.scanTimeoutError ("MCP工具调用超时: " ++ "GET_CLUSTER_INFO"))
      ∧ scan_static_resources timeoutAgent (some "prod")
          = .error (.scanError
              ("静态资源扫描失败: " ++ ("MCP工具调用超时: " ++ "GET_CLUSTER_INFO")))
      ∧ ∀ (cluster : String) (mr rd : Nat)
          (dynScan : Nat → Except PyExc PyVal),
          ∃ res,
            (scan_cluster_full
                (fun _ => scan_static_resources timeoutAgent (some "prod"))
                dynScan cluster true false mr rd).result = .ok res
            ∧ res.static_resources
                = some (.fail (mr + 1)
                    ("静态资源扫描失败: "
                      ++ ("MCP工具调用超时: " ++ "GET_CLUSTER_INFO")))
            ∧ res.dynamic_resources = Option.none) :=
  ⟨rfl, timeout_propagation_amended timeoutAgent (some "prod") rfl⟩

/-- Claim C5: the persisted secret record is insensitive to the secret's
payload values: two raw secrets with the same metadata and the same key
sets (any permutation) but arbitrary values produce identical coordinator
outputs — counts and store writes alike — and the persisted secret-meta
record carries exactly the fields cluster_name, namespace, name,
total_keys, labels, never a payload value or key name. -/
theorem secret_redaction_noninterference (cluster : String) (m : PyVal)
    (d1 d2 b1 b2 : List (String × PyVal))
    (hd : (d1.map Prod.fst).Perm (d2.map Prod.fst))
    (hb : (b1.map Prod.fst).Perm (b2.map Prod.fst)) :
    parse_and_store_dynamic (mkSecretsRaw [mkSecret m d1 b1]) cluster
      = parse_and_store_dynamic (mkSecretsRaw [mkSecret m d2 b2]) cluster
    ∧ ∀ s, (buildSecretMeta s).map Prod.fst
        = ["cluster_name", "namespace", "name", "total_keys", "labels"] := by
  have hld : d1.length = d2.length := by
    have := hd.length_eq
    simpa using this
  have hlb : b1.length = b2.length := by
    have := hb.length_eq
    simpa using this
  refine ⟨?_, fun s => rfl⟩
  cases m with
  | dict mkvs =>
    cases htruthy : (lookupD mkvs "name" PyVal.none).truthy with
    | false =>
      simp only [lookupD] at htruthy
      simp [parse_and_store_dynamic, parse_configmaps, tryParseList,
        parseConfigMapItem, mkSecretsRaw, mkSecret, pyGetD, containsKey,
        pyLookup, lookupD, htruthy, List.foldlM, bind, Except.bind, pure,
        Except.pure, Functor.map, Except.map]
    | true =>
      simp only [lookupD] at htruthy
      simp [parse_and_store_dynamic, parse_configmaps, tryParseList,
        parseConfigMapItem, buildSecretMeta, mkSecretsRaw, mkSecret, pyGetD,
        containsKey, pyLookup, lookupD, htruthy, hld, hlb, List.foldlM, bind,
        Except.bind, pure, Except.pure, Functor.map, Except.map]
  | none => rfl
  | bool b => rfl
  | int n => rfl
  | str s => rfl
  | list xs => rfl

/-- Claim C5 witness: two secrets sharing metadata and the key set
`password` but holding different payload values. -/
theorem secret_redaction_noninterference_witness :
    (([("password", PyVal.str "hunter2")].map Prod.fst).Perm
       ([("password", PyVal.str "letmein")].map Prod.fst))
    ∧ (([] : List (String × PyVal)).map Prod.fst).Perm
        (([] : List (String × PyVal)).map Prod.fst)
    ∧ (parse_and_store_dynamic
          (mkSecretsRaw [mkSecret secretMetaExample
            [("password", PyVal.str "hunter2")] []]) "c"
        = parse_and_store_dynamic
            (mkSecretsRaw [mkSecret secretMetaExample
              [("password", PyVal.str "letmein")] []]) "c"
      ∧ ∀ s, (buildSecretMeta s).map Prod.fst
          = ["cluster_name", "namespace", "name", "total_keys", "labels"]) :=
  ⟨List.Perm.refl _, List.Perm.refl _,
   secret_redaction_noninterference "c" secretMetaExample
     [("password", PyVal.str "hunter2")] [("password", PyVal.str "letmein")]
     [] [] (List.Perm.refl _) (List.Perm.refl _)⟩

/-- `pyEqStr v s` holds exactly for the string value `s`, the embedding of
the Python comparison `v == s` against a string literal. -/
theorem pyEqStr_iff (v : PyVal) (s : String) :
    pyEqStr v s = true ↔ v = .str s := by
  cases v <;> simp [pyEqStr]

/-- Lookup in a one-entry dict literal hits its entry. -/
theorem lookupD_single_hit (k : String) (v d : PyVal) :
    lookupD [(k, v)] k d = v := by
  simp [lookupD, pyLookup]

/-- Lookup in an empty dict yields the default. -/
theorem lookupD_nil (k : String) (d : PyVal) : lookupD [] k d = d := rfl

/-- One step of dict lookup. -/
theorem lookupD_cons (k0 : String) (v0 : PyVal)
    (rest : List (String × PyVal)) (k : String) (d : PyVal) :
    lookupD ((k0, v0) :: rest) k d
      = if k0 = k then v0 else lookupD rest k d := by
  by_cases hk : k0 = k <;> simp [lookupD, pyLookup, hk]

/-- Over boolean-or-absent `ready` fields the generator conjunction of
`_extract_pod_status` computes `List.all readyIsTrue`. -/
theorem allReadyM_eq (ss : List (List (String × PyVal)))
    (h : ∀ s ∈ ss, readyFieldOk s = true) :
    allReadyM (ss.map PyVal.dict) = .ok (ss.all readyIsTrue) := by
  induction ss with
  | nil => rfl
  | cons s rest ih =>
    have hs := h s (List.mem_cons_self s rest)
    have hrest := ih fun x hx => h x (List.mem_cons_of_mem s hx)
    cases hn : pyLookup s "ready" with
    | none =>
      simp [allReadyM, pyGetD, lookupD, hn, readyIsTrue, PyVal.truthy,
        List.all_cons, bind, Except.bind, pure, Except.pure]
    | some v =>
      cases v with
      | bool b =>
        cases b with
        | false =>
          simp [allReadyM, pyGetD, lookupD, hn, readyIsTrue, PyVal.truthy,
            List.all_cons, bind, Except.bind, pure, Except.pure]
        | true =>
          simp [allReadyM, pyGetD, lookupD, hn, readyIsTrue, PyVal.truthy,
            List.all_cons, hrest, bind, Except.bind, pure, Except.pure]
      | none => exact absurd hs (by simp [readyFieldOk, hn])
      | int n => exact absurd hs (by simp [readyFieldOk, hn])
      | str t => exact absurd hs (by simp [readyFieldOk, hn])
      | list xs => exact absurd hs (by simp [readyFieldOk, hn])
      | dict kvs => exact absurd hs (by simp [readyFieldOk, hn])

/-- Claim C8: the derived pod status is `Running` iff the phase is
`Running` and every container status entry is ready (vacuously when the
list is empty or absent); `NotReady` when the phase is `Running` but not
all entries are ready; and the phase itself (default `Unknown`) in every
other case. -/
theorem pod_status_characterization (st : List (String × PyVal))
    (ss : List (List (String × PyVal)))
    (hcs : lookupD st "containerStatuses" (.list [])
            = .list (ss.map PyVal.dict))
    (hready : ∀ s ∈ ss, readyFieldOk s = true) :
    ∃ r, extract_pod_status (mkStatusPod st) = .ok r
      ∧ (r = .str "Running"
          ↔ (lookupD st "phase" (.str "Unknown") = .str "Running"
             ∧ ss.all readyIsTrue = true))
      ∧ ((lookupD st "phase" (.str "Unknown") = .str "Running"
             ∧ ss.all readyIsTrue = false) → r = .str "NotReady")
      ∧ (lookupD st "phase" (.str "Unknown") ≠ .str "Running"
             → r = lookupD st "phase" (.str "Unknown")) := by
  cases ss with
  | nil =>
    refine ⟨lookupD st "phase" (.str "Unknown"), ?_, ?_, ?_, ?_⟩
    · simp [extract_pod_status, mkStatusPod, pyGetD, lookupD_single_hit, hcs, PyVal.truthy, bind,
        Except.bind, pure, Except.pure]
    · simp
    · simp
    · intro _; rfl
  | cons s rest =>
    have hall := allReadyM_eq (s :: rest) hready
    rw [List.map_cons] at hall
    cases hq : pyEqStr (lookupD st "phase" (.str "Unknown")) "Running" with
    | false =>
      have hne : lookupD st "phase" (.str "Unknown") ≠ .str "Running" := by
        intro he
        rw [← pyEqStr_iff (lookupD st "phase" (.str "Unknown")) "Running"] at he
        rw [hq] at he
        cases he
      refine ⟨lookupD st "phase" (.str "Unknown"), ?_, ?_, ?_, ?_⟩
      · simp [extract_pod_status, mkStatusPod, pyGetD, lookupD_single_hit, hcs,
          PyVal.truthy, hq, hall, bind, Except.bind, pure, Except.pure]
      · simp [hne]
      · intro hcon
        exact absurd hcon.1 hne
      · intro _; rfl
    | true =>
      have heq : lookupD st "phase" (.str "Unknown") = .str "Running" :=
        (pyEqStr_iff _ _).mp hq
      cases hb : (s :: rest).all readyIsTrue with
      | true =>
        refine ⟨.str "Running", ?_, ?_, ?_, ?_⟩
        · simp [extract_pod_status, mkStatusPod, pyGetD, lookupD_single_hit,
            hcs, PyVal.truthy, hq, hall, hb, bind, Except.bind, pure,
            Except.pure]
        · simp [heq]
        · intro hcon
          simp at hcon
        · intro hne
          exact absurd heq hne
      | false =>
        refine ⟨.str "NotReady", ?_, ?_, ?_, ?_⟩
        · simp [extract_pod_status, mkStatusPod, pyGetD, lookupD_single_hit,
            hcs, PyVal.truthy, hq, hall, hb, bind, Except.bind, pure,
            Except.pure]
        · simp
        · intro _; rfl
        · intro hne
          exact absurd heq hne

/-- Claim C8 witness: a running pod with one ready container. -/
theorem pod_status_characterization_witness :
    (lookupD [("phase", PyVal.str "Running"),
              ("containerStatuses",
                 .list [.dict [("name", PyVal.str "c1"),
                               ("ready", PyVal.bool true)]])]
        "containerStatuses" (.list [])
      = .list ([[("name", PyVal.str "c1"), ("ready", PyVal.bool true)]].map
          PyVal.dict))
    ∧ (∀ s ∈ [[("name", PyVal.str "c1"), ("ready", PyVal.bool true)]],
        readyFieldOk s = true)
    ∧ ∃ r, extract_pod_status (mkStatusPod
          [("phase", PyVal.str "Running"),
           ("containerStatuses",
              .list [.dict [("name", PyVal.str "c1"),
                            ("ready", PyVal.bool true)]])]) = .ok r
        ∧ (r = .str "Running"
            ↔ (lookupD [("phase", PyVal.str "Running"),
                        ("containerStatuses",
                           .list [.dict [("name", PyVal.str "c1"),
                                         ("ready", PyVal.bool true)]])]
                  "phase" (.str "Unknown") = .str "Running"
               ∧ ([[("name", PyVal.str "c1"),
                    ("ready", PyVal.bool true)]].all readyIsTrue) = true))
        ∧ ((lookupD [("phase", PyVal.str "Running"),
                     ("containerStatuses",
                        .list [.dict [("name", PyVal.str "c1"),
                                      ("ready", PyVal.bool true)]])]
               "phase" (.str "Unknown") = .str "Running"
            ∧ ([[("name", PyVal.str "c1"),
                 ("ready", PyVal.bool true)]].all readyIsTrue) = false)
              → r = .str "NotReady")
        ∧ (lookupD [("phase", PyVal.str "Running"),
                    ("containerStatuses",
                       .list [.dict [("name", PyVal.str "c1"),
                                     ("ready", PyVal.bool true)]])]
              "phase" (.str "Unknown") ≠ .str "Running"
              → r = lookupD [("phase", PyVal.str "Running"),
                             ("containerStatuses",
                                .list [.dict [("name", PyVal.str "c1"),
                                              ("ready", PyVal.bool true)]])]
                      "phase" (.str "Unknown")) :=
  ⟨rfl,
   by
     intro s hs
     rw [List.mem_singleton] at hs
     subst hs
     rfl,
   pod_status_characterization
     [("phase", PyVal.str "Running"),
      ("containerStatuses",
         .list [.dict [("name", PyVal.str "c1"),
                       ("ready", PyVal.bool true)]])]
     [[("name", PyVal.str "c1"), ("ready", PyVal.bool true)]]
     rfl
     (by
       intro s hs
       rw [List.mem_singleton] at hs
       subst hs
       rfl)⟩

/-- Inserting a fresh key into a count dict appends it at the end. -/
theorem dictInsertNat_fresh (k : String) (v : Nat) :
    ∀ l : List (String × Nat),
      k ∉ l.map Prod.fst → dictInsertNat l k v = l ++ [(k, v)] := by
  intro l
  induction l with
  | nil => intro _; rfl
  | cons p rest ih =>
    intro hk
    obtain ⟨k0, v0⟩ := p
    simp only [List.map_cons, List.mem_cons] at hk
    push_neg at hk
    have hne : ¬ (k0 = k) := fun he => hk.1 he.symm
    simp [dictInsertNat, hne, ih hk.2]

/-- Folding pairwise-fresh entries into a count dict appends them in
order. -/
theorem foldl_dictInsertNat_fresh :
    ∀ (dd acc : List (String × Nat)),
      (dd.map Prod.fst).Nodup →
      (∀ k ∈ dd.map Prod.fst, k ∉ acc.map Prod.fst) →
      dd.foldl (fun acc kv => dictInsertNat acc kv.1 kv.2) acc = acc ++ dd := by
  intro dd
  induction dd with
  | nil => intro acc _ _; simp
  | cons p rest ih =>
    intro acc hnd hfresh
    obtain ⟨k, v⟩ := p
    simp only [List.map_cons, List.nodup_cons] at hnd
    simp only [List.foldl_cons]
    rw [dictInsertNat_fresh k v acc (hfresh k (by simp))]
    rw [ih (acc ++ [(k, v)]) hnd.2 ?_]
    · simp
    · intro k2 hk2
      simp only [List.map_append, List.mem_append, List.map_cons,
        List.map_nil, List.mem_singleton]
      push_neg
      refine ⟨hfresh k2 (by simp [hk2]), ?_⟩
      intro he
      exact hnd.1 (he ▸ hk2)

/-- Claim C9: `total_resources` is always the sum of the two tier totals;
with per-tier count dicts whose keys are duplicate-free and disjoint across
tiers (as the pipeline produces), the breakdown is exactly the static
counts followed by the dynamic counts, so each tier total is the sum of
its own breakdown entries; and on the spec's end-to-end static-only
scenario the call returns `total_resources = 5` with breakdown
`clusters 1, namespaces 2, nodes 2`. -/
theorem scan_statistics_consistency
    (staticScan dynamicScan : Nat → Except PyExc PyVal) (mr rd : Nat)
    (h : staticScan 0 = .ok staticScenarioReply) :
    (∀ sr dr : Option TierResult,
       (calculate_scan_statistics sr dr).total_resources
         = (calculate_scan_statistics sr dr).static_resources
           + (calculate_scan_statistics sr dr).dynamic_resources
       ∧ (calculate_scan_statistics sr dr).static_resources
           = sumCounts (tierData sr)
       ∧ (calculate_scan_statistics sr dr).dynamic_resources
           = sumCounts (tierData dr))
    ∧ (∀ sr dr : Option TierResult,
        ((tierData sr).map Prod.fst).Nodup
        → ((tierData dr).map Prod.fst).Nodup
        → (∀ k ∈ (tierData dr).map Prod.fst, k ∉ (tierData sr).map Prod.fst)
        → (calculate_scan_statistics sr dr).resource_breakdown
            = tierData sr ++ tierData dr)
    ∧ (scan_cluster_full staticScan dynamicScan "test-cluster" true false
          mr rd).result
        = .ok ⟨"test-cluster",
               some (.ok 1 [("clusters", 1), ("namespaces", 2), ("nodes", 2)]),
               Option.none,
               ⟨5, 5, 0,
                [("clusters", 1), ("namespaces", 2), ("nodes", 2)]⟩⟩ := by
  refine ⟨fun sr dr => ⟨rfl, rfl, rfl⟩, ?_, ?_⟩
  · intro sr dr h1 h2 h3
    show (tierData dr).foldl (fun acc kv => dictInsertNat acc kv.1 kv.2)
        ((tierData sr).foldl (fun acc kv => dictInsertNat acc kv.1 kv.2) [])
      = tierData sr ++ tierData dr
    rw [foldl_dictInsertNat_fresh (tierData sr) [] h1 (by simp)]
    rw [List.nil_append]
    exact foldl_dictInsertNat_fresh (tierData dr) (tierData sr) h2 h3
  · have hatt : ∃ ws, staticAttempt staticScan "test-cluster" 0
        = .ok ([("clusters", 1), ("namespaces", 2), ("nodes", 2)], ws) := by
      unfold staticAttempt
      rw [h]
      exact ⟨_, rfl⟩
    obtain ⟨ws, hatt⟩ := hatt
    have hrun : runRetry (staticAttempt staticScan "test-cluster") rd 0 mr
        = ⟨.ok 1 [("clusters", 1), ("namespaces", 2), ("nodes", 2)], ws, []⟩ := by
      cases mr with
      | zero => simp [runRetry, hatt]
      | succ n => simp [runRetry, hatt]
    have hsr : scan_static_with_retry staticScan "test-cluster" mr rd
        = ⟨.ok 1 [("clusters", 1), ("namespaces", 2), ("nodes", 2)], ws, []⟩ :=
      hrun
    simp only [scan_cluster_full, hsr]
    rfl

/-- Claim C9 witness: the scenario oracle with `max_retries = 3`,
`retry_delay = 5`, dynamic tier excluded. -/
theorem scan_statistics_consistency_witness :
    scenarioScan 0 = .ok staticScenarioReply
    ∧ ((∀ sr dr : Option TierResult,
         (calculate_scan_statistics sr dr).total_resources
           = (calculate_scan_statistics sr dr).static_resources
             + (calculate_scan_statistics sr dr).dynamic_resources
         ∧ (calculate_scan_statistics sr dr).static_resources
             = sumCounts (tierData sr)
         ∧ (calculate_scan_statistics sr dr).dynamic_resources
             = sumCounts (tierData dr))
      ∧ (∀ sr dr : Option TierResult,
          ((tierData sr).map Prod.fst).Nodup
          → ((tierData dr).map Prod.fst).Nodup
          → (∀ k ∈ (tierData dr).map Prod.fst, k ∉ (tierData sr).map Prod.fst)
          → (calculate_scan_statistics sr dr).resource_breakdown
              = tierData sr ++ tierData dr)
      ∧ (scan_cluster_full scenarioScan emptyDynScan "test-cluster" true false
            3 5).result
          = .ok ⟨"test-cluster",
                 some (.ok 1
                   [("clusters", 1), ("namespaces", 2), ("nodes", 2)]),
                 Option.none,
                 ⟨5, 5, 0,
                  [("clusters", 1), ("namespaces", 2), ("nodes", 2)]⟩⟩) :=
  ⟨rfl, scan_statistics_consistency scenarioScan emptyDynScan 3 5 rfl⟩

/-- With hashable names, the status-map comprehension pairs each status
entry with its `name` field, in iteration order. -/
theorem buildStatusMap_dicts (ss : List (List (String × PyVal)))
    (hhash : ∀ s ∈ ss, hashableKey (lookupD s "name" PyVal.none) = true) :
    buildStatusMap (ss.map PyVal.dict)
      = .ok (ss.map fun s => (lookupD s "name" PyVal.none, PyVal.dict s)) := by
  induction ss with
  | nil => rfl
  | cons s rest ih =>
    have hs := hhash s (List.mem_cons_self s rest)
    have hrest := ih fun x hx => hhash x (List.mem_cons_of_mem s hx)
    simp [buildStatusMap, pyGetD, hs, hrest, bind, Except.bind, pure,
      Except.pure]

/-- Searching the reversed comprehension map is the last-matching-status
lookup. -/
theorem statusMapGet_mapped (name : PyVal) :
    ∀ ss : List (List (String × PyVal)),
      statusMapGet (ss.map fun s => (lookupD s "name" PyVal.none, PyVal.dict s))
          name
        = (match lastMatching name ss with
           | some s => PyVal.dict s
           | Option.none => .dict []) := by
  have haux : ∀ l : List (List (String × PyVal)),
      List.find? (fun p => pyKeyEq p.1 name)
          (l.map fun s => (lookupD s "name" PyVal.none, PyVal.dict s))
        = Option.map (fun s => (lookupD s "name" PyVal.none, PyVal.dict s))
            (l.find? fun s => pyKeyEq (lookupD s "name" PyVal.none) name) := by
    intro l
    induction l with
    | nil => rfl
    | cons s t ih =>
      cases hc : pyKeyEq (lookupD s "name" PyVal.none) name with
      | true => simp [List.find?_cons, hc]
      | false => simp [List.find?_cons, hc, ih]
  intro ss
  unfold statusMapGet lastMatching
  rw [← List.map_reverse, haux]
  cases ss.reverse.find? fun s => pyKeyEq (lookupD s "name" PyVal.none) name with
  | none => rfl
  | some s => rfl

/-- The container loop over dict containers with hashable names yields
exactly one `entryFor` record per spec container, in order. -/
theorem extractContainers_mapped (ss : List (List (String × PyVal))) :
    ∀ cs : List (List (String × PyVal)),
      (∀ c ∈ cs, hashableKey (lookupD c "name" PyVal.none) = true) →
      extractContainers
          (ss.map fun s => (lookupD s "name" PyVal.none, PyVal.dict s))
          (cs.map PyVal.dict)
        = .ok (cs.map fun c => entryFor c ss) := by
  intro cs
  induction cs with
  | nil => intro _; rfl
  | cons c rest ih =>
    intro hcn
    have hc := hcn c (List.mem_cons_self c rest)
    have hrest := ih fun x hx => hcn x (List.mem_cons_of_mem c hx)
    cases hm : lastMatching (lookupD c "name" PyVal.none) ss with
    | none =>
      simp [extractContainers, pyGetD, hc, statusMapGet_mapped, hm, entryFor,
        hrest, lookupD_nil, bind, Except.bind, pure, Except.pure]
    | some s =>
      simp [extractContainers, pyGetD, hc, statusMapGet_mapped, hm, entryFor,
        hrest, bind, Except.bind, pure, Except.pure]

/-- Claim C10: for a pod whose container names are hashable (as in real
replies), the parsed containers list has exactly one entry per
`spec.containers[]` element, in order — name and image from the spec
container, ready and restartCount from the (last) matching status entry —
so a status entry matching no spec container never appears, and a spec
container with no matching status entry gets `ready = False`,
`restartCount = 0`. -/
theorem container_merge_characterization (cs ss : List (List (String × PyVal)))
    (hhash : ∀ s ∈ ss, hashableKey (lookupD s "name" PyVal.none) = true)
    (hhashc : ∀ c ∈ cs, hashableKey (lookupD c "name" PyVal.none) = true) :
    extract_container_info (mkPod cs ss) = .ok (cs.map fun c => entryFor c ss)
    ∧ ∀ c, lastMatching (lookupD c "name" PyVal.none) ss = Option.none
        → entryFor c ss
            = .dict [("name", lookupD c "name" PyVal.none),
                     ("image", lookupD c "image" PyVal.none),
                     ("ready", .bool false), ("restartCount", .int 0)] := by
  constructor
  · have hmap := buildStatusMap_dicts ss hhash
    have hext := extractContainers_mapped ss cs hhashc
    simp [extract_container_info, mkPod, pyGetD, lookupD_cons, lookupD_nil,
      hmap, hext, bind, Except.bind, pure, Except.pure]
  · intro c hm
    simp [entryFor, hm]

/-- Claim C10 witness: two spec containers — one with a matching (ready)
status entry, one unmatched — and one extra status entry matching no spec
container. -/
theorem container_merge_characterization_witness :
    (∀ s ∈ [[("name", PyVal.str "app"), ("ready", PyVal.bool true),
             ("restartCount", PyVal.int 2)],
            [("name", PyVal.str "ghost"), ("ready", PyVal.bool true)]],
       hashableKey (lookupD s "name" PyVal.none) = true)
    ∧ (∀ c ∈ [[("name", PyVal.str "app"), ("image", PyVal.str "app:1")],
              [("name", PyVal.str "side"), ("image", PyVal.str "side:2")]],
        hashableKey (lookupD c "name" PyVal.none) = true)
    ∧ (extract_container_info (mkPod
          [[("name", PyVal.str "app"), ("image", PyVal.str "app:1")],
           [("name", PyVal.str "side"), ("image", PyVal.str "side:2")]]
          [[("name", PyVal.str "app"), ("ready", PyVal.bool true),
            ("restartCount", PyVal.int 2)],
           [("name", PyVal.str "ghost"), ("ready", PyVal.bool true)]])
        = .ok ([[("name", PyVal.str "app"), ("image", PyVal.str "app:1")],
                [("name", PyVal.str "side"), ("image", PyVal.str "side:2")]].map
            fun c => entryFor c
              [[("name", PyVal.str "app"), ("ready", PyVal.bool true),
                ("restartCount", PyVal.int 2)],
               [("name", PyVal.str "ghost"), ("ready", PyVal.bool true)]])
      ∧ ∀ c, lastMatching (lookupD c "name" PyVal.none)
            [[("name", PyVal.str "app"), ("ready", PyVal.bool true),
              ("restartCount", PyVal.int 2)],
             [("name", PyVal.str "ghost"), ("ready", PyVal.bool true)]]
            = Option.none
          → entryFor c
              [[("name", PyVal.str "app"), ("ready", PyVal.bool true),
                ("restartCount", PyVal.int 2)],
               [("name", PyVal.str "ghost"), ("ready", PyVal.bool true)]]
              = .dict [("name", lookupD c "name" PyVal.none),
                       ("image", lookupD c "image" PyVal.none),
                       ("ready", .bool false), ("restartCount", .int 0)]) :=
  ⟨by
     intro s hs
     simp only [List.mem_cons, List.not_mem_nil, or_false] at hs
     rcases hs with rfl | rfl <;> rfl,
   by
     intro c hc
     simp only [List.mem_cons, List.not_mem_nil, or_false] at hc
     rcases hc with rfl | rfl <;> rfl,
   container_merge_characterization
     [[("name", PyVal.str "app"), ("image", PyVal.str "app:1")],
      [("name", PyVal.str "side"), ("image", PyVal.str "side:2")]]
     [[("name", PyVal.str "app"), ("ready", PyVal.bool true),
       ("restartCount", PyVal.int 2)],
      [("name", PyVal.str "ghost"), ("ready", PyVal.bool true)]]
     (by
       intro s hs
       simp only [List.mem_cons, List.not_mem_nil, or_false] at hs
       rcases hs with rfl | rfl <;> rfl)
     (by
       intro c hc
       simp only [List.mem_cons, List.not_mem_nil, or_false] at hc
       rcases hc with rfl | rfl <;> rfl)⟩

end K8sScan
